import Mathlib

/-
Verification of the URL routing configuration of the django_todo_api
repository (src/todo/urls.py).

The configuration registers a resource viewset on a
rest_framework.routers.DefaultRouter under the name "todos" and mounts
the router at the path "api/v1/"; a second mount serves generated
documentation at "docs/".  We embed the route table that this
configuration produces and prove properties of route resolution.

The embedded patterns are exactly those generated by the framework for
this configuration:

  mounted at api/v1/ (DefaultRouter with trailing slash, basename todo):
    todos/                                  collection (get->list, post->create)
    todos\.(?P<format>[a-z0-9]+)/?          collection, format suffix
    todos/(?P<pk>[^/.]+)/                   item (get->retrieve, put->update,
                                            patch->partial update, delete->destroy)
    todos/(?P<pk>[^/.]+)\.(?P<format>[a-z0-9]+)/?  item, format suffix
    (empty)                                 the router API root view
    \.(?P<format>[a-z0-9]+)/?               API root, format suffix

  mounted at docs/ (include_docs_urls):
    (empty)                                 documentation index
    schema.js                               schema JavaScript view
      (the dot in the source pattern is an unescaped regex dot)

Django resolution: the incoming request path must start with a slash;
the remainder is matched against the mounts in order, and a mount whose
inner patterns all fail falls through to the next mount.  The query
string never takes part in resolution.
-/

namespace TodoApi

/-- HTTP methods relevant to the routed API. -/
inductive Method
  | GET | POST | PUT | PATCH | DELETE | HEAD | OPTIONS
  deriving DecidableEq, Repr

/-- Viewset actions that the router binds HTTP methods to on the two
todo routes (the mapping of SimpleRouter.routes). -/
inductive Action
  | list | create | retrieve | update | updatePartial | destroy
  deriving DecidableEq, Repr

/-- The distinct views the URL configuration can dispatch to.  The
format argument records a matched format-suffix capture. -/
inductive View
  | todoCollection (format : Option String)
  | todoItem (pk : String) (format : Option String)
  | apiRoot (format : Option String)
  | docsIndex
  | schemaJs
  deriving DecidableEq, Repr

/-- Character class of the default lookup regex `[^/.]`. -/
def isLookupChar (c : Char) : Bool :=
  c ≠ '/' && c ≠ '.'

/-- Character class of the format-suffix regex `[a-z0-9]`. -/
def isFormatChar (c : Char) : Bool :=
  ('a' ≤ c && c ≤ 'z') || ('0' ≤ c && c ≤ '9')

/-- Strip a literal pattern from the front of a path, returning the
remainder when the pattern matches. -/
def stripPre : List Char → List Char → Option (List Char)
  | [], cs => some cs
  | _ :: _, [] => none
  | p :: ps, c :: cs => if p = c then stripPre ps cs else none

/-- Match the tail regex `(?P<format>[a-z0-9]+)/?$`. -/
def matchFormat (cs : List Char) : Option String :=
  let fmt := cs.takeWhile isFormatChar
  let rest := cs.dropWhile isFormatChar
  if fmt = [] then none
  else if rest = [] ∨ rest = ['/'] then some (String.mk fmt)
  else none

/-- Match the tail regex `(?P<pk>[^/.]+)/$`. -/
def matchPkSlash (cs : List Char) : Option String :=
  let pk := cs.takeWhile isLookupChar
  let rest := cs.dropWhile isLookupChar
  if pk ≠ [] ∧ rest = ['/'] then some (String.mk pk) else none

/-- Match the tail regex `(?P<pk>[^/.]+)\.(?P<format>[a-z0-9]+)/?$`. -/
def matchPkFormat (cs : List Char) : Option (String × String) :=
  let pk := cs.takeWhile isLookupChar
  match cs.dropWhile isLookupChar with
  | c :: fs =>
      if c = '.' ∧ pk ≠ [] then
        (matchFormat fs).map (fun f => (String.mk pk, f))
      else none
  | [] => none

/-- Resolution of the patterns the DefaultRouter generates for the
single registration of "todos"; the argument is the path remainder
after the mount point. -/
def routerResolve (cs : List Char) : Option View :=
  match stripPre "todos/".toList cs with
  | some rest =>
      if rest = [] then some (.todoCollection none)
      else
        match matchPkSlash rest with
        | some pk => some (.todoItem pk none)
        | none =>
            match matchPkFormat rest with
            | some (pk, fmt) => some (.todoItem pk (some fmt))
            | none => none
  | none =>
      match stripPre "todos.".toList cs with
      | some rest =>
          match matchFormat rest with
          | some fmt => some (.todoCollection (some fmt))
          | none => none
      | none =>
          match cs with
          | [] => some (.apiRoot none)
          | c :: rest =>
              if c = '.' then (matchFormat rest).map (fun f => .apiRoot (some f))
              else none

/-- Match the source pattern `^schema.js$`, whose dot is an unescaped
regex dot, hence the wildcard position. -/
def matchSchemaJs : List Char → Bool
  | 's' :: 'c' :: 'h' :: 'e' :: 'm' :: 'a' :: _ :: 'j' :: 's' :: [] => true
  | _ => false

/-- Resolution of the two documentation patterns mounted by
include_docs_urls; the argument is the path remainder after the mount
point. -/
def docsResolve (cs : List Char) : Option View :=
  if cs = [] then some .docsIndex
  else if matchSchemaJs cs then some .schemaJs
  else none

/-- One entry of the top-level route table: a literal mount point and
the resolver for the included patterns. -/
structure Mount where
  mountPath : String
  sub : List Char → Option View

/-- The top-level route table of src/todo/urls.py: the router mounted
at api/v1/ and the documentation at docs/. -/
def urlpatterns : List Mount :=
  [⟨"api/v1/", routerResolve⟩, ⟨"docs/", docsResolve⟩]

/-- Try a single mount: its literal mount point must match and the
included patterns must match the remainder. -/
def resolveMount (m : Mount) (cs : List Char) : Option View :=
  match stripPre m.mountPath.toList cs with
  | some rest => m.sub rest
  | none => none

/-- Django resolution over a list of mounts: mounts are tried in order,
and a mount whose inner patterns fail falls through to the next. -/
def resolveList : List Mount → List Char → Option View
  | [], _ => none
  | m :: ms, cs =>
      match resolveMount m cs with
      | some v => some v
      | none => resolveList ms cs

/-- Resolve a path given as characters: it must begin with a slash and
the remainder is matched against the mounts, as Django's root resolver
does. -/
def resolveChars (cs : List Char) : Option View :=
  match cs with
  | c :: rest => if c = '/' then resolveList urlpatterns rest else none
  | [] => none

/-- Resolve a request path against the route table. -/
def resolvePath (p : String) : Option View :=
  resolveChars p.toList

/-- An incoming HTTP request: method, path and query string. -/
structure Request where
  method : Method
  path : String
  query : String
  deriving DecidableEq, Repr

/-- URL resolution of a request: only the path takes part. -/
def resolveRequest (r : Request) : Option View :=
  resolvePath r.path

/-- The method-to-action binding the router installs on the two todo
routes; views that are not the registered viewset carry no binding. -/
def viewAction : View → Method → Option Action
  | .todoCollection _, .GET => some .list
  | .todoCollection _, .HEAD => some .list
  | .todoCollection _, .POST => some .create
  | .todoItem _ _, .GET => some .retrieve
  | .todoItem _ _, .HEAD => some .retrieve
  | .todoItem _ _, .PUT => some .update
  | .todoItem _ _, .PATCH => some .updatePartial
  | .todoItem _ _, .DELETE => some .destroy
  | _, _ => none

/-- Full dispatch of a request: the resolved view together with the
viewset action its method is bound to, if any. -/
def dispatch (r : Request) : Option (View × Option Action) :=
  (resolveRequest r).map (fun v => (v, viewAction v r.method))

/-- The view is one of the two bound forms of the registered todo
viewset. -/
def isTodoView : View → Bool
  | .todoCollection _ => true
  | .todoItem _ _ => true
  | _ => false

/-- The view is generated by the router (the viewset bindings or the
router API root). -/
def isRouterView : View → Bool
  | .todoCollection _ => true
  | .todoItem _ _ => true
  | .apiRoot _ => true
  | _ => false

/-- The view belongs to the documentation mount. -/
def isDocsView : View → Bool
  | .docsIndex => true
  | .schemaJs => true
  | _ => false

/-- The request path begins with the given literal. -/
def pathBegins (pre p : String) : Bool :=
  (stripPre pre.toList p.toList).isSome

/-! ### Helper lemmas about the matching primitives -/

theorem toList_append (s t : String) : (s ++ t).toList = s.toList ++ t.toList :=
  rfl

theorem mk_toList (l : List Char) : (String.mk l).toList = l :=
  rfl

theorem stripPre_self_append (p cs : List Char) : stripPre p (p ++ cs) = some cs := by
  induction p with
  | nil => rfl
  | cons a ps ih => simp [stripPre, ih]

theorem stripPre_eq_some : ∀ {p cs r : List Char}, stripPre p cs = some r → cs = p ++ r := by
  intro p
  induction p with
  | nil =>
      intro cs r h
      simp [stripPre] at h
      simp [h]
  | cons a ps ih =>
      intro cs r h
      cases cs with
      | nil => simp [stripPre] at h
      | cons c cs =>
          simp only [stripPre] at h
          by_cases hac : a = c
          · rw [if_pos hac] at h
            subst hac
            simpa using ih h
          · rw [if_neg hac] at h
            exact absurd h (by simp)

theorem takeWhile_append_of_all {q : Char → Bool} {l : List Char} (l' : List Char)
    (h : l.all q = true) : (l ++ l').takeWhile q = l ++ l'.takeWhile q := by
  induction l with
  | nil => simp
  | cons a t ih =>
      simp only [List.all_cons, Bool.and_eq_true] at h
      simp [List.takeWhile_cons, h.1, ih h.2]

theorem dropWhile_append_of_all {q : Char → Bool} {l : List Char} (l' : List Char)
    (h : l.all q = true) : (l ++ l').dropWhile q = l'.dropWhile q := by
  induction l with
  | nil => simp
  | cons a t ih =>
      simp only [List.all_cons, Bool.and_eq_true] at h
      simp [List.dropWhile_cons, h.1, ih h.2]

theorem all_takeWhile (q : Char → Bool) (l : List Char) :
    (l.takeWhile q).all q = true := by
  induction l with
  | nil => rfl
  | cons a t ih =>
      by_cases h : q a
      · simp [List.takeWhile_cons, h, ih]
      · simp [List.takeWhile_cons, h]

theorem takeWhile_all_eq {q : Char → Bool} {l : List Char} (h : l.all q = true) :
    l.takeWhile q = l := by
  have := takeWhile_append_of_all [] h
  simpa using this

theorem dropWhile_all_eq {q : Char → Bool} {l : List Char} (h : l.all q = true) :
    l.dropWhile q = [] := by
  have := dropWhile_append_of_all [] h
  simpa using this

/-! ### Resolution along the mounts -/

theorem resolveChars_slash (cs : List Char) :
    resolveChars ('/' :: cs) = resolveList urlpatterns cs := by
  simp [resolveChars]

theorem resolveList_api (cs : List Char) :
    resolveList urlpatterns ("api/v1/".toList ++ cs) = routerResolve cs := by
  cases hr : routerResolve cs with
  | some v => simp [urlpatterns, resolveList, resolveMount, stripPre, hr]
  | none => simp [urlpatterns, resolveList, resolveMount, stripPre, hr]

theorem resolveList_docs (cs : List Char) :
    resolveList urlpatterns ("docs/".toList ++ cs) = docsResolve cs := by
  cases hr : docsResolve cs with
  | some v => simp [urlpatterns, resolveList, resolveMount, stripPre, hr]
  | none => simp [urlpatterns, resolveList, resolveMount, stripPre, hr]

theorem matchPkSlash_append (pk : List Char) (h1 : pk ≠ [])
    (h2 : pk.all isLookupChar = true) :
    matchPkSlash (pk ++ ['/']) = some (String.mk pk) := by
  have t1 : List.takeWhile isLookupChar ['/'] = [] := rfl
  have t2 : List.dropWhile isLookupChar ['/'] = ['/'] := rfl
  unfold matchPkSlash
  rw [takeWhile_append_of_all _ h2, dropWhile_append_of_all _ h2, t1, t2]
  simp [h1]

theorem routerResolve_item (pk : List Char) (h1 : pk ≠ [])
    (h2 : pk.all isLookupChar = true) :
    routerResolve ("todos/".toList ++ (pk ++ ['/']))
      = some (.todoItem (String.mk pk) none) := by
  unfold routerResolve
  rw [stripPre_self_append]
  simp [matchPkSlash_append pk h1 h2, h1]

theorem routerResolve_item_noslash (pk : List Char) (h1 : pk ≠ [])
    (h2 : pk.all isLookupChar = true) :
    routerResolve ("todos/".toList ++ pk) = none := by
  have hm : matchPkSlash pk = none := by
    unfold matchPkSlash
    rw [takeWhile_all_eq h2, dropWhile_all_eq h2]
    simp
  have hf : matchPkFormat pk = none := by
    unfold matchPkFormat
    rw [dropWhile_all_eq h2]
  unfold routerResolve
  rw [stripPre_self_append]
  simp [hm, hf, h1]

theorem resolvePath_api_append (rest : String) :
    resolvePath ("/api/v1/" ++ rest) = routerResolve rest.toList := by
  have h : ("/api/v1/" ++ rest).toList = '/' :: ("api/v1/".toList ++ rest.toList) := rfl
  unfold resolvePath
  rw [h, resolveChars_slash, resolveList_api]

theorem resolvePath_item_path (pk : String) (h1 : pk.toList ≠ [])
    (h2 : pk.toList.all isLookupChar = true) :
    resolvePath ("/api/v1/todos/" ++ pk ++ "/") = some (.todoItem pk none) := by
  have h : ("/api/v1/todos/" ++ pk ++ "/").toList
      = '/' :: ("api/v1/".toList ++ ("todos/".toList ++ (pk.toList ++ ['/']))) := by
    simp [toList_append]
  unfold resolvePath
  rw [h, resolveChars_slash, resolveList_api]
  exact routerResolve_item pk.toList h1 h2

theorem resolvePath_item_noslash_path (pk : String) (h1 : pk.toList ≠ [])
    (h2 : pk.toList.all isLookupChar = true) :
    resolvePath ("/api/v1/todos/" ++ pk) = none := by
  have h : ("/api/v1/todos/" ++ pk).toList
      = '/' :: ("api/v1/".toList ++ ("todos/".toList ++ pk.toList)) := by
    simp [toList_append]
  unfold resolvePath
  rw [h, resolveChars_slash, resolveList_api]
  exact routerResolve_item_noslash pk.toList h1 h2

/-! ### Inversion lemmas: what a successful match tells about the path
and the resolved view -/

theorem matchPkSlash_wf {cs : List Char} {pk : String}
    (h : matchPkSlash cs = some pk) :
    pk.toList ≠ [] ∧ pk.toList.all isLookupChar = true := by
  simp only [matchPkSlash] at h
  split at h
  · rename_i hc
    rw [Option.some.injEq] at h
    subst h
    exact ⟨hc.1, all_takeWhile isLookupChar cs⟩
  · exact absurd h (by simp)

theorem matchPkFormat_wf {cs : List Char} {pk f : String}
    (h : matchPkFormat cs = some (pk, f)) :
    pk.toList ≠ [] ∧ pk.toList.all isLookupChar = true := by
  simp only [matchPkFormat] at h
  split at h
  · split at h
    · rename_i hc
      rw [Option.map_eq_some'] at h
      obtain ⟨g, _, hpair⟩ := h
      rw [Prod.mk.injEq] at hpair
      obtain ⟨hpk, rfl⟩ := hpair
      rw [← hpk]
      exact ⟨hc.2, all_takeWhile isLookupChar cs⟩
    · exact absurd h (by simp)
  · exact absurd h (by simp)

theorem routerResolve_eq_item {cs : List Char} {pk : String} {f : Option String}
    (h : routerResolve cs = some (.todoItem pk f)) :
    pk.toList ≠ [] ∧ pk.toList.all isLookupChar = true := by
  unfold routerResolve at h
  split at h
  · split at h
    · exact absurd h (by simp)
    · split at h
      · rename_i pk' hm
        rw [Option.some.injEq, View.todoItem.injEq] at h
        obtain ⟨rfl, rfl⟩ := h
        exact matchPkSlash_wf hm
      · split at h
        · rename_i pk' fmt' hmf
          rw [Option.some.injEq, View.todoItem.injEq] at h
          obtain ⟨rfl, rfl⟩ := h
          exact matchPkFormat_wf hmf
        · exact absurd h (by simp)
  · split at h
    · split at h
      · exact absurd h (by simp)
      · exact absurd h (by simp)
    · split at h
      · exact absurd h (by simp)
      · split at h
        · rw [Option.map_eq_some'] at h
          obtain ⟨g, _, hbad⟩ := h
          exact absurd hbad (by simp)
        · exact absurd h (by simp)

theorem routerResolve_isRouterView {cs : List Char} {v : View}
    (h : routerResolve cs = some v) : isRouterView v = true := by
  unfold routerResolve at h
  split at h
  · split at h
    · rw [Option.some.injEq] at h; subst h; rfl
    · split at h
      · rw [Option.some.injEq] at h; subst h; rfl
      · split at h
        · rw [Option.some.injEq] at h; subst h; rfl
        · exact absurd h (by simp)
  · split at h
    · split at h
      · rw [Option.some.injEq] at h; subst h; rfl
      · exact absurd h (by simp)
    · split at h
      · rw [Option.some.injEq] at h; subst h; rfl
      · split at h
        · rw [Option.map_eq_some'] at h
          obtain ⟨g, _, hv⟩ := h
          subst hv; rfl
        · exact absurd h (by simp)

theorem docsResolve_isDocsView {cs : List Char} {v : View}
    (h : docsResolve cs = some v) : isDocsView v = true := by
  unfold docsResolve at h
  split at h
  · rw [Option.some.injEq] at h; subst h; rfl
  · split at h
    · rw [Option.some.injEq] at h; subst h; rfl
    · exact absurd h (by simp)

theorem pathBegins_api {p : String} {cs rest : List Char}
    (hp : p.toList = '/' :: cs) (hs : stripPre "api/v1/".toList cs = some rest) :
    pathBegins "/api/v1/" p = true := by
  unfold pathBegins
  rw [hp]
  have hlit : ("/api/v1/".toList : List Char) = '/' :: "api/v1/".toList := rfl
  rw [hlit]
  simp only [stripPre, if_pos rfl]
  rw [hs]
  rfl

theorem pathBegins_docs {p : String} {cs rest : List Char}
    (hp : p.toList = '/' :: cs) (hs : stripPre "docs/".toList cs = some rest) :
    pathBegins "/docs/" p = true := by
  unfold pathBegins
  rw [hp]
  have hlit : ("/docs/".toList : List Char) = '/' :: "docs/".toList := rfl
  rw [hlit]
  simp only [stripPre, if_pos rfl]
  rw [hs]
  rfl

theorem resolveMount_api_inv {cs : List Char} {v : View} {p : String}
    (hp : p.toList = '/' :: cs)
    (h : resolveMount ⟨"api/v1/", routerResolve⟩ cs = some v) :
    pathBegins "/api/v1/" p = true ∧ isRouterView v = true := by
  unfold resolveMount at h
  split at h
  · rename_i rest hs
    exact ⟨pathBegins_api hp hs, routerResolve_isRouterView h⟩
  · exact absurd h (by simp)

theorem resolveMount_docs_inv {cs : List Char} {v : View} {p : String}
    (hp : p.toList = '/' :: cs)
    (h : resolveMount ⟨"docs/", docsResolve⟩ cs = some v) :
    pathBegins "/docs/" p = true ∧ isDocsView v = true := by
  unfold resolveMount at h
  split at h
  · rename_i rest hs
    exact ⟨pathBegins_docs hp hs, docsResolve_isDocsView h⟩
  · exact absurd h (by simp)

theorem resolvePath_mounts {p : String} {v : View} (h : resolvePath p = some v) :
    (pathBegins "/api/v1/" p = true ∧ isRouterView v = true) ∨
    (pathBegins "/docs/" p = true ∧ isDocsView v = true) := by
  unfold resolvePath resolveChars at h
  split at h
  · rename_i c cs hp
    split at h
    · rename_i hc
      subst hc
      simp only [urlpatterns, resolveList] at h
      split at h
      · rename_i v0 hm
        rw [Option.some.injEq] at h
        subst h
        exact Or.inl (resolveMount_api_inv hp hm)
      · split at h
        · rename_i w hm2
          rw [Option.some.injEq] at h
          subst h
          exact Or.inr (resolveMount_docs_inv hp hm2)
        · exact absurd h (by simp)
    · exact absurd h (by simp)
  · exact absurd h (by simp)

theorem resolvePath_eq_item {p pk : String} {f : Option String}
    (h : resolvePath p = some (.todoItem pk f)) :
    pk.toList ≠ [] ∧ pk.toList.all isLookupChar = true := by
  unfold resolvePath resolveChars at h
  split at h
  · split at h
    · simp only [urlpatterns, resolveList] at h
      split at h
      · rename_i v0 hm
        rw [Option.some.injEq] at h
        subst h
        unfold resolveMount at hm
        split at hm
        · exact routerResolve_eq_item hm
        · exact absurd hm (by simp)
      · split at h
        · rename_i w hm2
          rw [Option.some.injEq] at h
          subst h
          unfold resolveMount at hm2
          split at hm2
          · have hd := docsResolve_isDocsView hm2
            simp [isDocsView] at hd
          · exact absurd hm2 (by simp)
        · exact absurd h (by simp)
    · exact absurd h (by simp)
  · exact absurd h (by simp)

/-! ### The claims -/

/-- C1, counterexample: the claim reads the spec table's paths
literally, but the router's collection pattern requires a trailing
slash, so the exact paths /api/v1/todos (GET and POST) resolve to no
handler at all. -/
theorem c1_slashless_counterexample :
    dispatch ⟨.GET, "/api/v1/todos", ""⟩ = none ∧
    dispatch ⟨.POST, "/api/v1/todos", ""⟩ = none := by
  decide

/-- C1 (amended): with the trailing slash the router requires, GET
/api/v1/todos/ resolves to the collection handler performing the list
action and POST /api/v1/todos/ resolves to the same collection handler
performing the create action; the slashless path matches no route. -/
theorem c1_collection_routes :
    dispatch ⟨.GET, "/api/v1/todos/", ""⟩
      = some (.todoCollection none, some .list) ∧
    dispatch ⟨.POST, "/api/v1/todos/", ""⟩
      = some (.todoCollection none, some .create) ∧
    resolvePath "/api/v1/todos" = none := by
  decide

/-- C2, counterexample: with the well-formed identifier 1, the exact
paths /api/v1/todos/1 (GET, PUT and DELETE) resolve to no handler
because the router's item pattern requires a trailing slash. -/
theorem c2_slashless_counterexample :
    dispatch ⟨.GET, "/api/v1/todos/1", ""⟩ = none ∧
    dispatch ⟨.PUT, "/api/v1/todos/1", ""⟩ = none ∧
    dispatch ⟨.DELETE, "/api/v1/todos/1", ""⟩ = none := by
  decide

/-- C2 (amended): for every well-formed identifier (nonempty, without
slash or dot), GET, PUT and DELETE on /api/v1/todos/<id>/ with the
trailing slash resolve to the item handler for that identifier
performing retrieve, update and destroy respectively. -/
theorem c2_item_routes (pk : String) (h1 : pk.toList ≠ [])
    (h2 : pk.toList.all isLookupChar = true) :
    dispatch ⟨.GET, "/api/v1/todos/" ++ pk ++ "/", ""⟩
      = some (.todoItem pk none, some .retrieve) ∧
    dispatch ⟨.PUT, "/api/v1/todos/" ++ pk ++ "/", ""⟩
      = some (.todoItem pk none, some .update) ∧
    dispatch ⟨.DELETE, "/api/v1/todos/" ++ pk ++ "/", ""⟩
      = some (.todoItem pk none, some .destroy) := by
  have hr := resolvePath_item_path pk h1 h2
  refine ⟨?_, ?_, ?_⟩ <;> simp [dispatch, resolveRequest, hr, viewAction]

/-- Witness for C2 at the concrete identifier 1. -/
theorem c2_item_routes_witness :
    (("1" : String).toList ≠ [] ∧
      ("1" : String).toList.all isLookupChar = true) ∧
    dispatch ⟨.GET, "/api/v1/todos/" ++ "1" ++ "/", ""⟩
      = some (.todoItem "1" none, some .retrieve) :=
  ⟨⟨by decide, by decide⟩, (c2_item_routes "1" (by decide) (by decide)).1⟩

/-- C3: a request path that begins with neither /api/v1/ nor /docs/
resolves to no handler, whatever the method and query string. -/
theorem c3_no_route_outside_mounts (p : String)
    (h1 : pathBegins "/api/v1/" p = false)
    (h2 : pathBegins "/docs/" p = false) :
    resolvePath p = none ∧
    ∀ (m : Method) (q : String), dispatch ⟨m, p, q⟩ = none := by
  have hn : resolvePath p = none := by
    cases hv : resolvePath p with
    | none => rfl
    | some v =>
        rcases resolvePath_mounts hv with ⟨ha, _⟩ | ⟨hd, _⟩
        · rw [h1] at ha
          exact absurd ha (by simp)
        · rw [h2] at hd
          exact absurd hd (by simp)
  refine ⟨hn, ?_⟩
  intro m q
  simp [dispatch, resolveRequest, hn]

/-- Witness for C3 at the concrete path /other/. -/
theorem c3_no_route_outside_mounts_witness :
    (pathBegins "/api/v1/" "/other/" = false ∧
      pathBegins "/docs/" "/other/" = false) ∧
    resolvePath "/other/" = none :=
  ⟨⟨by decide, by decide⟩,
    (c3_no_route_outside_mounts "/other/" (by decide) (by decide)).1⟩

/-- C4: two GET requests for the path /docs/ that differ only in their
query string resolve to the same documentation handler; the query
string takes no part in resolution. -/
theorem c4_docs_ignores_query (r₁ r₂ : Request)
    (_hm₁ : r₁.method = .GET) (_hm₂ : r₂.method = .GET)
    (hp₁ : r₁.path = "/docs/") (hp₂ : r₂.path = "/docs/") :
    resolveRequest r₁ = resolveRequest r₂ ∧
    resolveRequest r₁ = some .docsIndex := by
  unfold resolveRequest
  rw [hp₁, hp₂]
  exact ⟨rfl, by decide⟩

/-- Witness for C4 on two concrete requests with distinct queries. -/
theorem c4_docs_ignores_query_witness :
    resolveRequest ⟨.GET, "/docs/", "a=1"⟩
      = resolveRequest ⟨.GET, "/docs/", "b=2"⟩ ∧
    resolveRequest ⟨.GET, "/docs/", "a=1"⟩ = some .docsIndex :=
  c4_docs_ignores_query ⟨.GET, "/docs/", "a=1"⟩ ⟨.GET, "/docs/", "b=2"⟩
    rfl rfl rfl rfl

/-- C5, counterexample: the path /api/v1/ is matched, but its handler
is the router's API root view, which is neither the todo resource
controller nor the documentation view; so not every matched path is
handled by one of those two handlers. -/
theorem c5_api_root_counterexample :
    resolvePath "/api/v1/" = some (.apiRoot none) ∧
    isTodoView (.apiRoot none) = false ∧
    isDocsView (.apiRoot none) = false := by
  decide

/-- C5 (amended): every matched path falls under exactly one of the two
mount points: either it begins with /api/v1/ and its handler is a
router-generated view (the todo resource controller or the router's
API root), or it begins with /docs/ and its handler is a documentation
view; no other handler exists. -/
theorem c5_two_mount_points (p : String) (v : View)
    (h : resolvePath p = some v) :
    (pathBegins "/api/v1/" p = true ∧ isRouterView v = true) ∨
    (pathBegins "/docs/" p = true ∧ isDocsView v = true) :=
  resolvePath_mounts h

/-- Witness for C5 at the concrete path /docs/. -/
theorem c5_two_mount_points_witness :
    resolvePath "/docs/" = some View.docsIndex ∧
    ((pathBegins "/api/v1/" "/docs/" = true ∧
        isRouterView View.docsIndex = true) ∨
      (pathBegins "/docs/" "/docs/" = true ∧
        isDocsView View.docsIndex = true)) :=
  ⟨by decide, c5_two_mount_points "/docs/" View.docsIndex (by decide)⟩

/-- C6: the route table is the fixed two-mount constant built at
startup, and resolution of a request depends only on its method and
path, so equal method and path always dispatch identically. -/
theorem c6_fixed_route_table :
    urlpatterns.map Mount.mountPath = ["api/v1/", "docs/"] ∧
    ∀ r₁ r₂ : Request, r₁.method = r₂.method → r₁.path = r₂.path →
      dispatch r₁ = dispatch r₂ := by
  refine ⟨rfl, ?_⟩
  intro r₁ r₂ hm hp
  unfold dispatch resolveRequest
  rw [hm, hp]

/-- Witness for C6 on two concrete requests equal up to the query. -/
theorem c6_fixed_route_table_witness :
    dispatch ⟨.GET, "/api/v1/todos/", "x=1"⟩
      = dispatch ⟨.GET, "/api/v1/todos/", "y=2"⟩ :=
  c6_fixed_route_table.2 ⟨.GET, "/api/v1/todos/", "x=1"⟩
    ⟨.GET, "/api/v1/todos/", "y=2"⟩ rfl rfl

/-- C7: the DefaultRouter additionally exposes an API root view: GET
/api/v1/ is matched and dispatches to a view that is neither the todo
resource controller nor the documentation view, a route absent from
the spec's table. -/
theorem c7_api_root_route :
    dispatch ⟨.GET, "/api/v1/", ""⟩ = some (.apiRoot none, none) ∧
    isTodoView (.apiRoot none) = false ∧
    isDocsView (.apiRoot none) = false := by
  decide

/-- C8: a PATCH request on /api/v1/todos/<id>/ resolves to the item
handler bound to the partial-update action, for every well-formed
identifier. -/
theorem c8_patch_item_route (pk : String) (h1 : pk.toList ≠ [])
    (h2 : pk.toList.all isLookupChar = true) :
    dispatch ⟨.PATCH, "/api/v1/todos/" ++ pk ++ "/", ""⟩
      = some (.todoItem pk none, some .updatePartial) := by
  have hr := resolvePath_item_path pk h1 h2
  simp [dispatch, resolveRequest, hr, viewAction]

/-- Witness for C8 at the concrete identifier 5. -/
theorem c8_patch_item_route_witness :
    (("5" : String).toList ≠ [] ∧
      ("5" : String).toList.all isLookupChar = true) ∧
    dispatch ⟨.PATCH, "/api/v1/todos/" ++ "5" ++ "/", ""⟩
      = some (.todoItem "5" none, some .updatePartial) :=
  ⟨⟨by decide, by decide⟩, c8_patch_item_route "5" (by decide) (by decide)⟩

/-- C9: the router's patterns require the trailing slash —
/api/v1/todos/ and /api/v1/todos/<id>/ match while the slashless forms
do not — and every identifier captured by the item route is nonempty
and free of slash and dot, as the default lookup pattern demands. -/
theorem c9_trailing_slash_and_lookup (pk : String) (h1 : pk.toList ≠ [])
    (h2 : pk.toList.all isLookupChar = true) :
    resolvePath "/api/v1/todos/" = some (.todoCollection none) ∧
    resolvePath "/api/v1/todos" = none ∧
    resolvePath ("/api/v1/todos/" ++ pk ++ "/") = some (.todoItem pk none) ∧
    resolvePath ("/api/v1/todos/" ++ pk) = none ∧
    (∀ (p q : String) (f : Option String),
      resolvePath p = some (.todoItem q f) →
        q.toList ≠ [] ∧ q.toList.all isLookupChar = true) := by
  refine ⟨by decide, by decide, resolvePath_item_path pk h1 h2,
    resolvePath_item_noslash_path pk h1 h2, ?_⟩
  intro p q f h
  exact resolvePath_eq_item h

/-- Witness for C9 at the concrete identifier 42. -/
theorem c9_trailing_slash_and_lookup_witness :
    (("42" : String).toList ≠ [] ∧
      ("42" : String).toList.all isLookupChar = true) ∧
    resolvePath ("/api/v1/todos/" ++ "42" ++ "/")
      = some (.todoItem "42" none) ∧
    resolvePath ("/api/v1/todos/" ++ "42") = none :=
  ⟨⟨by decide, by decide⟩,
    (c9_trailing_slash_and_lookup "42" (by decide) (by decide)).2.2.1,
    (c9_trailing_slash_and_lookup "42" (by decide) (by decide)).2.2.2.1⟩

end TodoApi
